import Mathlib

/-!
Verification of the talent-match dashboard (`app.py`) against its
natural-language specification.

The numeric model uses `ℚ` for Python floats (the spec mandates "full
floating precision" internally, and every constant appearing in the code is
exactly representable), `ℤ` for Python ints, and `Except`/`Option` for
Python exceptions and `None`.  Randomness (`random.uniform`, `random.choice`,
SQL `RANDOM()`) is modelled by explicit draw streams passed as arguments:
`u : ℕ → ℚ` gives the value returned by the n-th call to `random.uniform`,
`c : ℕ → ℕ` gives the index drawn by the n-th call to `random.choice`.
-/

/-- Python `round(q)` with no digits argument: round half to even
(banker's rounding), returning an int. -/
def pyRoundInt (q : ℚ) : ℤ :=
  if q - ⌊q⌋ < 1/2 then ⌊q⌋
  else if 1/2 < q - ⌊q⌋ then ⌊q⌋ + 1
  else if ⌊q⌋ % 2 = 0 then ⌊q⌋ else ⌊q⌋ + 1

/-- Python `round(q, 1)`: round to one decimal place, half to even. -/
def pyRound1 (q : ℚ) : ℚ := (pyRoundInt (10 * q) : ℚ) / 10

/-- Evaluation helper: once the floor of `q` is located, `pyRoundInt q`
reduces to a case split on the fractional part. -/
theorem pyRoundInt_eq_of_floor (q : ℚ) (z : ℤ) (h1 : (z : ℚ) ≤ q) (h2 : q < z + 1) :
    pyRoundInt q =
      if q - z < 1/2 then z else if 1/2 < q - z then z + 1 else if z % 2 = 0 then z else z + 1 := by
  have hf : ⌊q⌋ = z := Int.floor_eq_iff.mpr ⟨h1, by exact_mod_cast h2⟩
  simp only [pyRoundInt, hf]

/-- Python `round` of an integer is that integer. -/
theorem pyRoundInt_intCast (z : ℤ) : pyRoundInt (z : ℚ) = z := by
  rw [pyRoundInt_eq_of_floor (z : ℚ) z le_rfl (by norm_num)]
  norm_num

/-- Python `round(x, 1)` of an integer is that integer. -/
theorem pyRound1_intCast (z : ℤ) : pyRound1 (z : ℚ) = z := by
  unfold pyRound1
  rw [show ((10 : ℚ) * z) = ((10 * z : ℤ) : ℚ) by push_cast; ring, pyRoundInt_intCast]
  push_cast
  ring

example : pyRoundInt (5/2) = 2 := by
  rw [pyRoundInt_eq_of_floor (5/2) 2 (by norm_num) (by norm_num)]
  norm_num

example : pyRoundInt (7/2) = 4 := by
  rw [pyRoundInt_eq_of_floor (7/2) 3 (by norm_num) (by norm_num)]
  norm_num

example : pyRound1 (2405/30) = 802/10 := by
  unfold pyRound1
  rw [show (10 : ℚ) * (2405/30) = 2405/3 by norm_num,
    pyRoundInt_eq_of_floor (2405/3) 801 (by norm_num) (by norm_num)]
  norm_num

/-- Error taxonomy.  `zeroDivision` models Python's built-in
`ZeroDivisionError`; the remaining constructors are the spec's taxonomy
(section 7), none of which occurs anywhere in `app.py`. -/
inductive PipeError where
  | zeroDivision
  | emptyAggregation
  | noBenchmarksFound
  | invalidScore
  | undefinedRate
deriving DecidableEq

/-- Row produced by `generate_sample_data` (app.py lines 196-218): the
per-candidate record before the `is_benchmark` column is added.  TGV/TV
scores are ints because Python `round(x)` with no digits returns an int. -/
structure SampleRow where
  employee_id : String
  name : String
  position : String
  grade : String
  directorate : String
  final_match_rate : ℚ
  tgv_scores : List (String × ℤ)
  tv_scores : List (String × ℤ)
deriving DecidableEq

/-- Choice lists hard-coded in `generate_sample_data` (app.py line 201). -/
def positionChoices : List String := ["Data Analyst", "Business Analyst", "Data Scientist"]

/-- Choice list of app.py line 202. -/
def gradeChoices : List String := ["III", "IV", "V"]

/-- Choice list of app.py line 203. -/
def directorateChoices : List String := ["Commercial", "Operations", "HR & Corporate Affairs"]

/-- Python `random.choice(options)`: the RNG supplies an index into the
list; we receive that draw as a natural number `k`. -/
def pyChoice (options : List String) (k : ℕ) : String :=
  options.getD (k % options.length) ""

/-- One row of `generate_sample_data` (app.py lines 197-218).  Row `i`
consumes uniform draws `10*i .. 10*i+9` (one for `base_score`, nine for the
TGV/TV offsets, in source order) and choice draws `3*i .. 3*i+2`
(position, grade, directorate). -/
def sampleRow (u : ℕ → ℚ) (c : ℕ → ℕ) (i : ℕ) : SampleRow :=
  let base : ℚ := u (10 * i)
  { employee_id := "EMP" ++ toString (1000 + i)
    name := "Employee " ++ toString (1000 + i)
    position := pyChoice positionChoices (c (3 * i))
    grade := pyChoice gradeChoices (c (3 * i + 1))
    directorate := pyChoice directorateChoices (c (3 * i + 2))
    final_match_rate := pyRound1 base
    tgv_scores :=
      [("Learning Agility", pyRoundInt (base + u (10 * i + 1))),
       ("Results Orientation", pyRoundInt (base + u (10 * i + 2))),
       ("Collaboration", pyRoundInt (base + u (10 * i + 3))),
       ("Innovation", pyRoundInt (base + u (10 * i + 4))),
       ("Integrity", pyRoundInt (base + u (10 * i + 5)))]
    tv_scores :=
      [("Technical Skills", pyRoundInt (base + u (10 * i + 6))),
       ("Domain Knowledge", pyRoundInt (base + u (10 * i + 7))),
       ("Analytical Thinking", pyRoundInt (base + u (10 * i + 8))),
       ("Communication", pyRoundInt (base + u (10 * i + 9)))] }

/-- Embedding of `generate_sample_data` (app.py lines 191-220): fifteen rows
driven by the global RNG, received here as explicit draw streams. -/
def generate_sample_data (u : ℕ → ℚ) (c : ℕ → ℕ) : List SampleRow :=
  (List.range 15).map (sampleRow u c)

/-- Embedding of `execute_matching_query` (app.py lines 135-189): the
database either returns rows (themselves produced by SQL `RANDOM()`; we take
the returned rows as given), returns no data (`None` results), or raises, in
which case the function falls back to `generate_sample_data`. -/
def execute_matching_query (queryOutcome : Except String (Option (List SampleRow)))
    (u : ℕ → ℚ) (c : ℕ → ℕ) : Option (List SampleRow) :=
  match queryOutcome with
  | .ok (some rows) => some rows
  | .ok none => none
  | .error _ => some (generate_sample_data u c)

example : (generate_sample_data (fun _ => 70) (fun _ => 0)).length = 15 := by decide

/-- Claim C1 (code_bug evidence): the demo-mode candidate generation that
feeds the pipeline is driven by the RNG, not by the snapshot inputs.  Two
invocations whose `random.uniform` streams differ (as they do across two
real calls, since the global RNG state advances) produce different outputs
even though the snapshot inputs (role descriptor, benchmark IDs) are the
same — `generate_sample_data` does not even take them as arguments.  The
second conjunct records that `execute_matching_query` falls back to this
random generator whenever the database path fails. -/
theorem c1_generate_flow_not_deterministic :
    generate_sample_data (fun _ => (70 : ℚ)) (fun _ => 0)
        ≠ generate_sample_data (fun _ => (80 : ℚ)) (fun _ => 0) ∧
    execute_matching_query (.error "connection refused") (fun _ => (70 : ℚ)) (fun _ => 0)
        = some (generate_sample_data (fun _ => (70 : ℚ)) (fun _ => 0)) := by
  constructor
  · intro h
    have h0 := congrArg (fun l => (l[0]?).map SampleRow.final_match_rate) h
    simp only [generate_sample_data, List.getElem?_map,
      show (List.range 15)[0]? = some 0 from rfl, Option.map_some', sampleRow] at h0
    have e1 : pyRound1 (70 : ℚ) = 70 := by exact_mod_cast pyRound1_intCast 70
    have e2 : pyRound1 (80 : ℚ) = 80 := by exact_mod_cast pyRound1_intCast 80
    rw [e1, e2] at h0
    norm_num at h0
  · rfl

/-- Row of `talent_df` after app.py line 328 adds the `is_benchmark`
column: the sample/query row plus the flag
`employee_id in benchmark_list` (pandas `isin`). -/
structure TalentRow where
  row : SampleRow
  is_benchmark : Bool
deriving DecidableEq

/-- Embedding of app.py line 328:
`talent_df['is_benchmark'] = talent_df['employee_id'].isin(benchmark_list)`. -/
def mark_benchmarks (rows : List SampleRow) (benchmark_list : List String) : List TalentRow :=
  rows.map (fun r => { row := r, is_benchmark := benchmark_list.contains r.employee_id })

/-- Ordering used by the sort step: the `final_match_rate` column only. -/
def rateLe (a b : TalentRow) : Prop :=
  a.row.final_match_rate ≤ b.row.final_match_rate

instance : DecidableRel rateLe := fun a b =>
  inferInstanceAs (Decidable (a.row.final_match_rate ≤ b.row.final_match_rate))

/-- Embedding of `talent_df.sort_values('final_match_rate', ascending=False)`
(app.py line 329).  pandas `nargsort` computes an ascending argsort of the
key column and reverses it for `ascending=False`; numpy's sort is stable on
the array sizes arising here (insertion sort below 16 elements), so the
model is a stable ascending sort followed by `reverse`.  The source passes
no secondary sort key. -/
def sort_values_final_desc (rows : List TalentRow) : List TalentRow :=
  (List.insertionSort rateLe rows).reverse

/-- Claim C2 (amended): the output of the sort step is ordered descending
by `final_match_rate` — every entry's rate is at least the rate of every
later entry.  The source supplies no secondary sort key, so nothing beyond
the rate ordering is guaranteed (see the counterexample below). -/
theorem c2_sort_descending (rows : List TalentRow) :
    List.Pairwise (fun a b => b.row.final_match_rate ≤ a.row.final_match_rate)
      (sort_values_final_desc rows) := by
  unfold sort_values_final_desc
  rw [List.pairwise_reverse]
  haveI : IsTotal TalentRow rateLe := ⟨fun a b => le_total _ _⟩
  haveI : IsTrans TalentRow rateLe := ⟨fun _ _ _ => le_trans⟩
  exact List.sorted_insertionSort rateLe rows

/-- Concrete tied pair used to refute the tie-break clause of claim C2. -/
def tieRowA : TalentRow :=
  { row := { employee_id := "EMP1000", name := "Employee 1000", position := "Data Analyst",
             grade := "III", directorate := "Commercial", final_match_rate := 80,
             tgv_scores := [], tv_scores := [] },
    is_benchmark := false }

/-- Second element of the tied pair: same rate, larger employee id. -/
def tieRowB : TalentRow :=
  { row := { employee_id := "EMP1001", name := "Employee 1001", position := "Data Analyst",
             grade := "III", directorate := "Commercial", final_match_rate := 80,
             tgv_scores := [], tv_scores := [] },
    is_benchmark := false }

/-- Claim C2 (counterexample): on two rows with equal `final_match_rate`
supplied in ascending `employee_id` order, the sort step returns the row
with the larger `employee_id` first, refuting the claim that ties are
broken by `employee_id` ascending.  (`.data <` is the lexicographic order
on the id's characters.) -/
theorem c2_tiebreak_counterexample :
    sort_values_final_desc [tieRowA, tieRowB] = [tieRowB, tieRowA] ∧
    tieRowA.row.final_match_rate = tieRowB.row.final_match_rate ∧
    tieRowA.row.employee_id.data < tieRowB.row.employee_id.data := by
  refine ⟨?_, rfl, by decide⟩
  simp only [sort_values_final_desc, List.insertionSort, List.orderedInsert]
  rw [if_pos (by norm_num [rateLe, tieRowA, tieRowB])]
  rfl

/-- Embedding of `talent_df['final_match_rate'].tolist()` (app.py line 332,
reread at line 400 for the distribution chart). -/
def match_rates (rows : List TalentRow) : List ℚ :=
  rows.map (fun r => r.row.final_match_rate)

/-- Embedding of app.py line 333: the rate column restricted to the rows
whose `is_benchmark` flag is set. -/
def benchmark_rates (rows : List TalentRow) : List ℚ :=
  (rows.filter (fun r => r.is_benchmark)).map (fun r => r.row.final_match_rate)

/-- Embedding of `round(sum(match_rates) / len(match_rates), 1)` (app.py
line 340).  Python raises `ZeroDivisionError` when the list is empty. -/
def avg_match (rates : List ℚ) : Except PipeError ℚ :=
  if rates.length = 0 then .error .zeroDivision
  else .ok (pyRound1 (rates.sum / rates.length))

/-- Embedding of app.py line 341:
`round(sum(benchmark_rates) / len(benchmark_rates), 1) if benchmark_rates else 0`. -/
def benchmark_avg (rates : List ℚ) : ℚ :=
  if rates.isEmpty then 0 else pyRound1 (rates.sum / rates.length)

/-- Embedding of app.py line 342: `len([r for r in match_rates if r >= 80])`. -/
def top_talent_count (rates : List ℚ) : ℕ :=
  (rates.filter (fun r => decide (80 ≤ r))).length

/-- Embedding of the distribution table (app.py lines 401-410): bucket
counts over the rate list, labels as in the source. -/
def distribution_counts (rates : List ℚ) : List (String × ℕ) :=
  [("90-100", (rates.filter (fun r => decide (90 ≤ r))).length),
   ("80-89", (rates.filter (fun r => decide (80 ≤ r ∧ r < 90))).length),
   ("70-79", (rates.filter (fun r => decide (70 ≤ r ∧ r < 80))).length),
   ("60-69", (rates.filter (fun r => decide (60 ≤ r ∧ r < 70))).length),
   ("<60", (rates.filter (fun r => decide (r < 60))).length)]


/-- Claim C7: the five distribution bucket counts sum to the number of
candidates, for every rate list: the buckets partition the rate line. -/
theorem c7_distribution_counts_sum (rates : List ℚ) :
    ((distribution_counts rates).map Prod.snd).sum = rates.length := by
  induction rates with
  | nil => rfl
  | cons r t ih =>
    simp only [distribution_counts, List.map, List.sum_cons, List.sum_nil] at ih ⊢
    simp only [Bool.decide_and] at ih ⊢
    rcases le_or_lt 90 r with h1 | h1
    · have n90 : ¬ r < 90 := not_lt.mpr h1
      have n80 : ¬ r < 80 := by intro hb; linarith
      have n70 : ¬ r < 70 := by intro hb; linarith
      have n60 : ¬ r < 60 := by intro hb; linarith
      simp [List.filter_cons, h1, n90, n80, n70, n60]
      omega
    · have m90 : ¬ (90 : ℚ) ≤ r := not_le.mpr h1
      rcases le_or_lt 80 r with h2 | h2
      · have n80 : ¬ r < 80 := not_lt.mpr h2
        have n70 : ¬ r < 70 := by intro hb; linarith
        have n60 : ¬ r < 60 := by intro hb; linarith
        simp [List.filter_cons, m90, h2, h1, n80, n70, n60]
        omega
      · have m80 : ¬ (80 : ℚ) ≤ r := not_le.mpr h2
        rcases le_or_lt 70 r with h3 | h3
        · have n70 : ¬ r < 70 := not_lt.mpr h3
          have n60 : ¬ r < 60 := by intro hb; linarith
          simp [List.filter_cons, m90, m80, h3, h2, n70, n60]
          omega
        · have m70 : ¬ (70 : ℚ) ≤ r := not_le.mpr h3
          rcases le_or_lt 60 r with h4 | h4
          · have n60 : ¬ r < 60 := not_lt.mpr h4
            simp [List.filter_cons, m90, m80, m70, h4, h3, n60]
            omega
          · have m60 : ¬ (60 : ℚ) ≤ r := not_le.mpr h4
            simp [List.filter_cons, m90, m80, m70, m60, h4]
            omega

/-- Rounding to the nearest integer moves a value by at most one half. -/
theorem pyRoundInt_close (x : ℚ) : |(pyRoundInt x : ℚ) - x| ≤ 1/2 := by
  have hfl : (⌊x⌋ : ℚ) ≤ x := Int.floor_le x
  have hfu : x < ⌊x⌋ + 1 := Int.lt_floor_add_one x
  unfold pyRoundInt
  split_ifs with hc1 hc2 hc3 <;> rw [abs_le] <;> constructor <;> push_cast <;> linarith

/-- Rounding to one decimal place moves a value by at most `1/20`. -/
theorem pyRound1_close (q : ℚ) : |pyRound1 q - q| ≤ 1/20 := by
  have h := pyRoundInt_close (10 * q)
  rw [abs_le] at h ⊢
  unfold pyRound1
  constructor <;> [linarith [h.1]; linarith [h.2]]

/-- Modelled from the spec: `AggregateCluster` does not exist in the code
(the SQL-side aggregation is unimplemented); spec section 4.1 defines it as
the weighted mean of the variable rates present, weights defaulting to 1,
normalised by the sum of the weights, failing with `EmptyAggregationError`
on an empty rate mapping. -/
def AggregateCluster (variable_rates : List (String × ℚ))
    (weights : Option (List (String × ℚ))) : Except PipeError ℚ :=
  if variable_rates.isEmpty then .error .emptyAggregation
  else
    let w : String → ℚ := fun name =>
      match weights with
      | none => 1
      | some ws => (ws.lookup name).getD 1
    .ok ((variable_rates.map (fun p => w p.1 * p.2)).sum
          / (variable_rates.map (fun p => w p.1)).sum)

/-- Modelled from the spec: `AggregateFinal` (spec section 4.1) has the same
contract as `AggregateCluster`, applied to cluster-level rates. -/
def AggregateFinal (cluster_rates : List (String × ℚ))
    (weights : Option (List (String × ℚ))) : Except PipeError ℚ :=
  AggregateCluster cluster_rates weights

/-- Claim C3 (counterexample): the only aggregation the code performs over
the full candidate set, `avg_match`, fails on an empty collection with
Python's `ZeroDivisionError`, not with the spec's `EmptyAggregationError`
(which appears nowhere in the code). -/
theorem c3_counterexample :
    avg_match [] = .error .zeroDivision ∧
    PipeError.zeroDivision ≠ PipeError.emptyAggregation := by
  exact ⟨rfl, by decide⟩

/-- Claim C3 (amended): aggregation over an empty collection always fails
and never yields a default value — `avg_match` errors exactly on the empty
list (with `ZeroDivisionError`, the code defining no richer taxonomy), and
the spec-modelled cluster/final aggregators fail with
`EmptyAggregationError` on empty input. -/
theorem c3_empty_aggregation_fails (w1 w2 : Option (List (String × ℚ))) :
    (∀ rates : List ℚ, avg_match rates = .error PipeError.zeroDivision ↔ rates = []) ∧
    AggregateCluster [] w1 = .error .emptyAggregation ∧
    AggregateFinal [] w2 = .error .emptyAggregation := by
  refine ⟨fun rates => ?_, rfl, rfl⟩
  cases rates with
  | nil => simp [avg_match]
  | cons r t => simp [avg_match]

/-- Helper row for concrete analytics evaluations: a benchmark-flagged
candidate with the given id and final rate. -/
def bmRow (id : String) (rate : ℚ) : TalentRow :=
  { row := { employee_id := id, name := id, position := "Data Analyst", grade := "III",
             directorate := "Commercial", final_match_rate := rate,
             tgv_scores := [], tv_scores := [] },
    is_benchmark := true }

/-- Three benchmark-flagged rows whose rates are one-decimal values with a
mean that is not representable at one decimal. -/
def c4Rows : List TalentRow :=
  [bmRow "312" (801/10), bmRow "335" (802/10), bmRow "175" (802/10)]

/-- Claim C4 (counterexample): on the benchmark subset with rates
`[80.1, 80.2, 80.2]` the code returns `round(mean, 1) = 80.2`, which is not
the arithmetic mean `80.1666… = 481/6`; the claim's "equals the arithmetic
mean" fails whenever the mean is not representable at one decimal. -/
theorem c4_counterexample :
    benchmark_avg (benchmark_rates c4Rows) = 802/10 ∧
    (benchmark_rates c4Rows).sum / ((benchmark_rates c4Rows).length : ℚ) = 481/6 ∧
    (802/10 : ℚ) ≠ 481/6 := by
  have hbr : benchmark_rates c4Rows = [801/10, 802/10, 802/10] := rfl
  refine ⟨?_, by rw [hbr]; norm_num, by norm_num⟩
  rw [hbr]
  show benchmark_avg [801/10, 802/10, 802/10] = 802/10
  unfold benchmark_avg
  rw [if_neg (by simp)]
  rw [show List.sum [(801:ℚ)/10, 802/10, 802/10] / ((List.length [(801:ℚ)/10, 802/10, 802/10] : ℕ) : ℚ)
        = 2405/30 by simp; norm_num]
  unfold pyRound1
  rw [show (10 : ℚ) * (2405/30) = 2405/3 by norm_num,
    pyRoundInt_eq_of_floor (2405/3) 801 (by norm_num) (by norm_num)]
  norm_num

/-- Claim C4 (amended): `benchmark_avg` equals the arithmetic mean of the
benchmark-flagged rates rounded to one decimal place (Python `round(x, 1)`),
hence within `1/20` of the true mean, and equals `0` when the benchmark
subset is empty. -/
theorem c4_benchmark_avg_rounded_mean (rows : List TalentRow) :
    (benchmark_rates rows = [] → benchmark_avg (benchmark_rates rows) = 0) ∧
    (benchmark_rates rows ≠ [] →
      benchmark_avg (benchmark_rates rows)
          = pyRound1 ((benchmark_rates rows).sum / ((benchmark_rates rows).length : ℚ)) ∧
      |benchmark_avg (benchmark_rates rows)
          - (benchmark_rates rows).sum / ((benchmark_rates rows).length : ℚ)| ≤ 1/20) := by
  constructor
  · intro h
    rw [h]
    rfl
  · intro h
    have hne : (benchmark_rates rows).isEmpty = false := by
      cases hbr : benchmark_rates rows with
      | nil => exact absurd hbr h
      | cons a t => rfl
    have heq : benchmark_avg (benchmark_rates rows)
        = pyRound1 ((benchmark_rates rows).sum / ((benchmark_rates rows).length : ℚ)) := by
      unfold benchmark_avg
      rw [hne]
      simp
    exact ⟨heq, heq ▸ pyRound1_close _⟩

/-- Claim C4 witness: the amended statement evaluated at the empty row list
and at the concrete benchmark triple. -/
theorem c4_witness :
    benchmark_avg (benchmark_rates []) = 0 ∧
    benchmark_avg (benchmark_rates c4Rows)
        = pyRound1 ((benchmark_rates c4Rows).sum / ((benchmark_rates c4Rows).length : ℚ)) :=
  ⟨(c4_benchmark_avg_rounded_mean []).1 rfl,
   ((c4_benchmark_avg_rounded_mean c4Rows).2 (by decide)).1⟩

/-- Python `str.strip()` on the character list: drop leading and trailing
whitespace. -/
def pyStripChars (cs : List Char) : List Char :=
  ((cs.dropWhile Char.isWhitespace).reverse.dropWhile Char.isWhitespace).reverse

/-- Python `id.strip()` (app.py line 305). -/
def pyStrip (s : String) : String := ⟨pyStripChars s.data⟩

/-- Python `s.split(',')` on the character list: split at every comma,
keeping empty segments; the empty string yields one empty segment. -/
def pySplitCommaChars : List Char → List (List Char)
  | [] => [[]]
  | ch :: rest =>
    if ch = ',' then [] :: pySplitCommaChars rest
    else
      match pySplitCommaChars rest with
      | [] => [[ch]]
      | seg :: segs => (ch :: seg) :: segs

/-- Python `benchmark_ids.split(',')` (app.py line 305). -/
def pySplitComma (s : String) : List String :=
  (pySplitCommaChars s.data).map (fun cs => ⟨cs⟩)

/-- The full stripped id list supplied by the caller, before truncation:
`[id.strip() for id in benchmark_ids.split(',')]`. -/
def supplied_ids (benchmark_ids : String) : List String :=
  (pySplitComma benchmark_ids).map pyStrip

/-- Embedding of app.py line 305:
`benchmark_list = [id.strip() for id in benchmark_ids.split(',')][:3]`. -/
def benchmark_list (benchmark_ids : String) : List String :=
  (supplied_ids benchmark_ids).take 3

example : benchmark_list "312, 335, 175, 999" = ["312", "335", "175"] := by decide
example : benchmark_list "" = [""] := by decide

/-- Claim C5: the resolved benchmark id list is exactly the first three
stripped ids in caller order — it has length at most 3, it is the prefix of
the full supplied list (the dropped tail being the ignored extras), and the
`is_benchmark` flagging consults exactly this truncated list. -/
theorem c5_benchmark_truncation (s : String) :
    (benchmark_list s).length ≤ 3 ∧
    supplied_ids s = benchmark_list s ++ (supplied_ids s).drop 3 ∧
    (∀ (rows : List SampleRow) (t : TalentRow), t ∈ mark_benchmarks rows (benchmark_list s) →
      (t.is_benchmark = true ↔ t.row.employee_id ∈ benchmark_list s)) := by
  refine ⟨List.length_take_le 3 _, (List.take_append_drop 3 _).symm, ?_⟩
  intro rows t ht
  rcases List.mem_map.mp ht with ⟨r, -, rfl⟩
  exact List.elem_iff

/-- Concrete row used by the C5 and C6 evaluations. -/
def c5Row : SampleRow :=
  { employee_id := "312", name := "Employee 312", position := "Data Analyst", grade := "III",
    directorate := "Commercial", final_match_rate := 70, tgv_scores := [], tv_scores := [] }

/-- Claim C5 witness: the prefix and flagging facts at the concrete input
`"312, 335, 175, 999"` (four ids supplied, fourth ignored) and a
single-candidate frame. -/
theorem c5_witness :
    (benchmark_list "312, 335, 175, 999").length ≤ 3 ∧
    (TalentRow.is_benchmark { row := c5Row, is_benchmark := true } = true
      ↔ c5Row.employee_id ∈ benchmark_list "312, 335, 175, 999") :=
  ⟨(c5_benchmark_truncation "312, 335, 175, 999").1,
   (c5_benchmark_truncation "312, 335, 175, 999").2.2 [c5Row]
     { row := c5Row, is_benchmark := true } (by decide)⟩

/-- JSON values, modelling the untyped payloads that `json.loads` and the
fallback dict of `generate_job_profile` produce. -/
inductive JsonValue where
  | str (s : String)
  | num (q : ℚ)
  | jbool (b : Bool)
  | null
  | arr (items : List JsonValue)
  | obj (fields : List (String × JsonValue))

/-- Dictionary access on a JSON object: first field with the given key. -/
def JsonValue.lookup : JsonValue → String → Option JsonValue
  | .obj fields, key => List.lookup key fields
  | _, _ => none

/-- The fallback dict literal of `generate_job_profile` (app.py lines
123-133), a pure function of the three role inputs. -/
def fallback_profile (role_name job_level role_purpose : String) : JsonValue :=
  .obj
    [("job_requirements", .str (role_name ++ " requires strong technical skills, domain expertise, and proven ability to deliver results at " ++ job_level ++ " level. Excellent communication, analytical thinking, and stakeholder management capabilities are essential.")),
     ("job_description", .str ("As a " ++ role_name ++ ", you will " ++ role_purpose ++ ". This " ++ job_level ++ " position requires balancing technical depth with business acumen, driving data-informed decisions, and collaborating effectively across teams.")),
     ("key_competencies", .arr [.str "Technical Expertise", .str "Analytical Thinking", .str "Communication Skills", .str "Problem Solving", .str "Stakeholder Management"])]

/-- Embedding of `generate_job_profile` (app.py lines 85-133).  The whole
`try` body — HTTP call, response field extraction, markdown stripping and
`json.loads` — is received as `apiOutcome`: `ok` carries the parsed JSON
returned unvalidated, and any exception lands in the `except` branch, which
returns the fallback dict. -/
def generate_job_profile (role_name job_level role_purpose : String)
    (apiOutcome : Except String JsonValue) : JsonValue :=
  match apiOutcome with
  | .ok parsed => parsed
  | .error _ => fallback_profile role_name job_level role_purpose

/-- Claim C9: the profile generator is total — it returns the parsed value
on success and, on every internal fault, exactly the fallback dict, which
is deterministically derived from the three role inputs and carries
`job_requirements`, `job_description`, and a `key_competencies` array of
length 5. -/
theorem c9_profile_generator_total (role_name job_level role_purpose e : String) :
    generate_job_profile role_name job_level role_purpose (.error e)
        = fallback_profile role_name job_level role_purpose ∧
    (∃ reqs, (fallback_profile role_name job_level role_purpose).lookup "job_requirements"
        = some (.str reqs)) ∧
    (∃ desc, (fallback_profile role_name job_level role_purpose).lookup "job_description"
        = some (.str desc)) ∧
    (∃ comps, (fallback_profile role_name job_level role_purpose).lookup "key_competencies"
        = some (.arr comps) ∧ comps.length = 5) := by
  exact ⟨rfl, ⟨_, rfl⟩, ⟨_, rfl⟩, ⟨_, rfl, rfl⟩⟩

/-- Modelled from the spec: `AggregateVariable` (spec sections 4.1 and 8)
does not exist in the code — the per-variable match-rate formula lives only
in the spec (the SQL computation is unimplemented).  Outside `[0,100]`
either score fails with `InvalidScoreError`; with a positive baseline the
rate is `100 - min(100, |c - b| / b * 100)`; equal scores (including both
zero) rate 100.  A zero baseline with a differing candidate score is left
undefined by the spec and modelled as the error `undefinedRate`. -/
def AggregateVariable (candidate_score baseline_score : ℚ) : Except PipeError ℚ :=
  if candidate_score < 0 ∨ 100 < candidate_score
      ∨ baseline_score < 0 ∨ 100 < baseline_score then
    .error .invalidScore
  else if 0 < baseline_score then
    .ok (100 - min 100 (|candidate_score - baseline_score| / baseline_score * 100))
  else if candidate_score = baseline_score then
    .ok 100
  else
    .error .undefinedRate

/-- Claim C8: `AggregateVariable` is invariant under scaling both scores by
a positive constant (whenever both pairs are valid), returns exactly 100 on
equal scores (including both zero), and fails with `InvalidScoreError` when
either score leaves `[0,100]`. -/
theorem c8_aggregate_variable (c b k : ℚ) :
    (0 ≤ c → c ≤ 100 → 0 ≤ b → b ≤ 100 → 0 < k → k * c ≤ 100 → k * b ≤ 100 →
      AggregateVariable (k * c) (k * b) = AggregateVariable c b) ∧
    (0 ≤ c → c ≤ 100 → c = b → AggregateVariable c b = .ok 100) ∧
    (c < 0 ∨ 100 < c ∨ b < 0 ∨ 100 < b → AggregateVariable c b = .error .invalidScore) := by
  refine ⟨?_, ?_, ?_⟩
  · intro hc0 hc1 hb0 hb1 hk hkc hkb
    have hvalid : ¬ (c < 0 ∨ 100 < c ∨ b < 0 ∨ 100 < b) := by
      push_neg
      exact ⟨hc0, hc1, hb0, hb1⟩
    have hkvalid : ¬ (k * c < 0 ∨ 100 < k * c ∨ k * b < 0 ∨ 100 < k * b) := by
      push_neg
      exact ⟨mul_nonneg hk.le hc0, hkc, mul_nonneg hk.le hb0, hkb⟩
    unfold AggregateVariable
    rw [if_neg hvalid, if_neg hkvalid]
    rcases lt_or_eq_of_le hb0 with hb | hb
    · rw [if_pos hb, if_pos (mul_pos hk hb)]
      have harg : |k * c - k * b| / (k * b) * 100 = |c - b| / b * 100 := by
        rw [show k * c - k * b = k * (c - b) by ring, abs_mul, abs_of_pos hk]
        rw [mul_div_mul_left _ _ (ne_of_gt hk)]
      rw [harg]
    · rw [← hb]
      have hz : ¬ (0 : ℚ) < 0 := lt_irrefl 0
      have hkz : k * 0 = 0 := mul_zero k
      rw [hkz]
      rw [if_neg hz]
      by_cases hc : c = 0
      · rw [if_pos hc, hc, mul_zero, if_pos rfl, if_neg hz]
      · rw [if_neg hc, if_neg (by
          intro hkc0
          exact hc (by
            rcases mul_eq_zero.mp hkc0 with h | h
            · exact absurd h (ne_of_gt hk)
            · exact h))]
        rw [if_neg hz]
  · intro hc0 hc1 hcb
    have hvalid : ¬ (c < 0 ∨ 100 < c ∨ b < 0 ∨ 100 < b) := by
      push_neg
      exact ⟨hc0, hc1, hcb ▸ hc0, hcb ▸ hc1⟩
    unfold AggregateVariable
    rw [if_neg hvalid]
    rcases lt_or_eq_of_le (hcb ▸ hc0 : (0:ℚ) ≤ b) with hb | hb
    · rw [if_pos hb, hcb, sub_self, abs_zero, zero_div, zero_mul]
      norm_num
    · rw [if_neg (hb ▸ lt_irrefl (0:ℚ)), if_pos hcb]
  · intro h
    unfold AggregateVariable
    rw [if_pos h]

/-- Claim C8 witness: the three parts applied at concrete scores — the pair
`(30, 40)` scaled by 2, the equal pair `(50, 50)`, and the out-of-range
candidate score 101. -/
theorem c8_witness :
    AggregateVariable (2 * 30) (2 * 40) = AggregateVariable 30 40 ∧
    AggregateVariable 50 50 = .ok 100 ∧
    AggregateVariable 101 50 = .error .invalidScore :=
  ⟨(c8_aggregate_variable 30 40 2).1 (by norm_num) (by norm_num) (by norm_num) (by norm_num)
      (by norm_num) (by norm_num) (by norm_num),
   (c8_aggregate_variable 50 50 1).2.1 (by norm_num) (by norm_num) rfl,
   (c8_aggregate_variable 101 50 1).2.2 (by norm_num)⟩

/-- The `st.session_state.results` dict built at app.py lines 335-345. -/
structure PipelineResults where
  vacancy_id : String
  job_profile : JsonValue
  talent_df : List TalentRow
  avg_match : ℚ
  benchmark_avg : ℚ
  top_talent_count : ℕ
  benchmark_ids : List String

/-- Embedding of the demo-mode generate flow (app.py lines 303-345 with no
database configured): parse and truncate the benchmark ids, build the job
profile, generate sample candidates from the RNG streams, flag and sort
them, and package results.  `vacancy_ts` is the `datetime.now()` timestamp
string; a `ZeroDivisionError` from the average propagates as `error`. -/
def run_generate_demo (role_name job_level role_purpose benchmark_ids vacancy_ts : String)
    (apiOutcome : Except String JsonValue) (u : ℕ → ℚ) (cdraws : ℕ → ℕ) :
    Except PipeError PipelineResults :=
  let blist := benchmark_list benchmark_ids
  let profile := generate_job_profile role_name job_level role_purpose apiOutcome
  let talent := sort_values_final_desc (mark_benchmarks (generate_sample_data u cdraws) blist)
  let rates := match_rates talent
  Except.map
    (fun avg =>
      { vacancy_id := "JV-" ++ vacancy_ts
        job_profile := profile
        talent_df := talent
        avg_match := avg
        benchmark_avg := benchmark_avg (benchmark_rates talent)
        top_talent_count := top_talent_count rates
        benchmark_ids := blist })
    (avg_match rates)

/-- Observable outcome of one click of the generate button: the session
results slot afterwards, whether any pipeline stage ran, and whether the
error banner was shown. -/
structure HandlerOutcome where
  results : Option PipelineResults
  pipeline_ran : Bool
  error_shown : Bool

/-- Embedding of the generate-button handler (app.py lines 299-345).
`not all([role_name, job_level, role_purpose, benchmark_ids])` is true
exactly when one of the four strings is empty (Python string truthiness),
in which case only `st.error` runs; otherwise the pipeline body executes
and overwrites `st.session_state.results` on success. -/
def generate_handler (role_name job_level role_purpose benchmark_ids : String)
    (prev : Option PipelineResults)
    (run : Unit → Except PipeError PipelineResults) : HandlerOutcome :=
  if role_name = "" ∨ job_level = "" ∨ role_purpose = "" ∨ benchmark_ids = "" then
    { results := prev, pipeline_ran := false, error_shown := true }
  else
    match run () with
    | .ok res => { results := some res, pipeline_ran := true, error_shown := false }
    | .error _ => { results := prev, pipeline_ran := true, error_shown := true }

/-- Claim C10: when any of the four required form inputs is empty, no
pipeline stage runs, the previously stored results value is left unchanged,
and only the error message is emitted. -/
theorem c10_empty_input_frame (role_name job_level role_purpose benchmark_ids : String)
    (prev : Option PipelineResults) (run : Unit → Except PipeError PipelineResults)
    (h : role_name = "" ∨ job_level = "" ∨ role_purpose = "" ∨ benchmark_ids = "") :
    generate_handler role_name job_level role_purpose benchmark_ids prev run
      = { results := prev, pipeline_ran := false, error_shown := true } := by
  unfold generate_handler
  rw [if_pos h]

/-- Claim C10 witness: the handler with an empty role name, a stored
previous result, and a pipeline thunk that would overwrite it. -/
theorem c10_witness :
    generate_handler "" "Middle" "drive analytics" "312" none
        (fun _ => .error .zeroDivision)
      = { results := none, pipeline_ran := false, error_shown := true } :=
  c10_empty_input_frame "" "Middle" "drive analytics" "312" none
    (fun _ => .error .zeroDivision) (Or.inl rfl)

/-- The sort step permutes the rows (it is a sort). -/
theorem sort_values_perm (rows : List TalentRow) :
    (sort_values_final_desc rows).Perm rows := by
  unfold sort_values_final_desc
  exact (List.reverse_perm _).trans (List.perm_insertionSort _ _)

/-- When no row's id is in the benchmark list, the flagging step flags
nothing: the benchmark-filtered frame is empty. -/
theorem filter_benchmark_nil (bl : List String) :
    ∀ rows : List SampleRow, (∀ r ∈ rows, bl.contains r.employee_id = false) →
      (mark_benchmarks rows bl).filter (fun r => r.is_benchmark) = [] := by
  intro rows
  induction rows with
  | nil => intro h; rfl
  | cons r rest ih =>
    intro h
    have hr := h r (List.mem_cons_self r rest)
    have hrest : ∀ x ∈ rest, bl.contains x.employee_id = false :=
      fun x hx => h x (List.mem_cons_of_mem r hx)
    simp only [mark_benchmarks, List.map_cons, List.filter_cons] at ih ⊢
    rw [hr]
    simpa using ih hrest

/-- Candidate record of the spec's data model (section 3): an id and the
per-variable score mapping.  Only what `BuildBaseline` consumes. -/
structure CandidateProfile where
  employee_id : String
  variable_scores : List (String × ℚ)

/-- Modelled from the spec: `BuildBaseline` (spec section 4.2) does not
exist in the code — no baseline computation is implemented.  It truncates
the ids to the first three, fails with `NoBenchmarksFoundError` if no id
matches a candidate, and otherwise takes, for each variable present in a
matched candidate, the mean of that variable over the matched candidates
having it. -/
def BuildBaseline (all_candidates : List CandidateProfile)
    (benchmark_ids : List String) : Except PipeError (List (String × ℚ)) :=
  let ids := benchmark_ids.take 3
  let matched := all_candidates.filter (fun cand => ids.contains cand.employee_id)
  if matched.isEmpty then .error .noBenchmarksFound
  else
    let vars := ((matched.map (fun cand => cand.variable_scores.map Prod.fst)).flatten).dedup
    .ok (vars.map (fun v =>
      let scores := matched.filterMap (fun cand => List.lookup v cand.variable_scores)
      (v, scores.sum / (scores.length : ℚ))))

/-- The demo candidate pool: ids `EMP1000` … `EMP1014`, as produced by
`generate_sample_data`, viewed as spec candidates. -/
def demoCandidates : List CandidateProfile :=
  (List.range 15).map (fun i => { employee_id := "EMP" ++ toString (1000 + i), variable_scores := [] })

/-- Evaluation of the demo generate flow when the rate list is nonempty:
the returned results record, field by field. -/
theorem run_generate_demo_eval (role level purpose bids ts : String)
    (api : Except String JsonValue) (u : ℕ → ℚ) (cd : ℕ → ℕ)
    (hne : (match_rates (sort_values_final_desc
        (mark_benchmarks (generate_sample_data u cd) (benchmark_list bids)))).length ≠ 0) :
    run_generate_demo role level purpose bids ts api u cd = .ok
      { vacancy_id := "JV-" ++ ts
        job_profile := generate_job_profile role level purpose api
        talent_df := sort_values_final_desc
          (mark_benchmarks (generate_sample_data u cd) (benchmark_list bids))
        avg_match := pyRound1 ((match_rates (sort_values_final_desc
            (mark_benchmarks (generate_sample_data u cd) (benchmark_list bids)))).sum
          / ((match_rates (sort_values_final_desc
            (mark_benchmarks (generate_sample_data u cd) (benchmark_list bids)))).length : ℚ))
        benchmark_avg := benchmark_avg (benchmark_rates (sort_values_final_desc
          (mark_benchmarks (generate_sample_data u cd) (benchmark_list bids))))
        top_talent_count := top_talent_count (match_rates (sort_values_final_desc
          (mark_benchmarks (generate_sample_data u cd) (benchmark_list bids))))
        benchmark_ids := benchmark_list bids } := by
  have havg : avg_match (match_rates (sort_values_final_desc
      (mark_benchmarks (generate_sample_data u cd) (benchmark_list bids))))
      = .ok (pyRound1 ((match_rates (sort_values_final_desc
          (mark_benchmarks (generate_sample_data u cd) (benchmark_list bids)))).sum
        / ((match_rates (sort_values_final_desc
          (mark_benchmarks (generate_sample_data u cd) (benchmark_list bids)))).length : ℚ))) := by
    unfold avg_match
    rw [if_neg hne]
  simp only [run_generate_demo]
  rw [havg]
  rfl

/-- Claim C6 (code_bug evidence): with benchmark ids `312, 335, 175` and
the demo candidate pool `EMP1000`-`EMP1014` (no id matches), the spec's
`BuildBaseline` fails with `NoBenchmarksFoundError`, but the implemented
generate flow proceeds: it returns a results record in which no candidate
is flagged as benchmark and `benchmark_avg` is `0`.  No
`NoBenchmarksFoundError` exists anywhere in the code. -/
theorem c6_no_benchmark_validation :
    BuildBaseline demoCandidates ["312", "335", "175"] = .error .noBenchmarksFound ∧
    ∃ res : PipelineResults,
      run_generate_demo "Data Analyst" "Middle" "deliver insight" "312, 335, 175"
          "20250101000000" (.error "api down") (fun _ => (70 : ℚ)) (fun _ => 0) = .ok res ∧
      res.benchmark_avg = 0 ∧
      ∀ t ∈ res.talent_df, t.is_benchmark = false := by
  constructor
  · rfl
  · have hflags : ∀ r ∈ generate_sample_data (fun _ => (70 : ℚ)) (fun _ => 0),
        (benchmark_list "312, 335, 175").contains r.employee_id = false := by decide
    have hfz := filter_benchmark_nil (benchmark_list "312, 335, 175") _ hflags
    have hperm := sort_values_perm (mark_benchmarks
      (generate_sample_data (fun _ => (70 : ℚ)) (fun _ => 0)) (benchmark_list "312, 335, 175"))
    have htf : (sort_values_final_desc (mark_benchmarks
        (generate_sample_data (fun _ => (70 : ℚ)) (fun _ => 0))
        (benchmark_list "312, 335, 175"))).filter (fun r => r.is_benchmark) = [] := by
      have hp := List.Perm.filter (fun r => r.is_benchmark) hperm
      rw [hfz] at hp
      exact hp.eq_nil
    have hbr : benchmark_rates (sort_values_final_desc (mark_benchmarks
        (generate_sample_data (fun _ => (70 : ℚ)) (fun _ => 0))
        (benchmark_list "312, 335, 175"))) = [] := by
      unfold benchmark_rates
      rw [htf]
      rfl
    have hlen : (match_rates (sort_values_final_desc (mark_benchmarks
        (generate_sample_data (fun _ => (70 : ℚ)) (fun _ => 0))
        (benchmark_list "312, 335, 175")))).length ≠ 0 := by
      unfold match_rates
      rw [List.length_map, hperm.length_eq]
      decide
    refine ⟨_, run_generate_demo_eval "Data Analyst" "Middle" "deliver insight" "312, 335, 175"
      "20250101000000" (.error "api down") (fun _ => (70 : ℚ)) (fun _ => 0) hlen, ?_, ?_⟩
    · show benchmark_avg (benchmark_rates (sort_values_final_desc (mark_benchmarks
        (generate_sample_data (fun _ => (70 : ℚ)) (fun _ => 0))
        (benchmark_list "312, 335, 175")))) = 0
      rw [hbr]
      rfl
    · intro t ht
      have hmem : t ∈ mark_benchmarks (generate_sample_data (fun _ => (70 : ℚ)) (fun _ => 0))
          (benchmark_list "312, 335, 175") := hperm.mem_iff.mp ht
      rcases List.mem_map.mp hmem with ⟨r, hr, rfl⟩
      exact hflags r hr
